import Mathlib

/-!
Shallow embedding of the VOC case-management application: the data model
(src/models.py), the field validators (src/utils/validation.py), the
evaluator, invoicing, dispatcher and case-owner workflow actions, the
recall scheduler (src/utils/scheduler.py), the temporal KPI engine
(src/utils/kpi.py), the CSV case exporter (src/utils/export.py) and the
attachment size helper (src/utils/upload.py), together with theorems
settling the stated properties of these components.
-/

/-- The eight workflow statuses of src/models.py (File.status, lines
56-65), as a closed enumeration. The source persists them as the mixed
French/English string literals listed there; each constructor stands for
one literal, in the canonical workflow order. -/
inductive Status where
  | enAttenteEvaluation
  | enCoursEvaluation
  | readyToInvoice
  | payed
  | enCoursTraitement
  | aCompleter
  | transfertInspection
  | finalized
  deriving DecidableEq, Repr

/-- src/models.py User: the fields the embedded operations read (the
password hash and active flag play no part in the claims settled here). -/
structure User where
  id : Nat
  username : String
  email : String
  role : String
  deriving DecidableEq, Repr

/-- src/models.py File: the central work item. Dates and timestamps are
abstract instants: receipt_date and recall_date are day numbers,
created_at and the changed_at of history rows are second counts, so that
the day arithmetic of the scheduler and the fractional-day arithmetic of
the KPI engine both embed directly. -/
structure File where
  id : Nat
  file_number : String
  receipt_date : Int
  importer : String
  exporter : String
  country : String
  route : String
  sor_number : Option String
  sol_number : Option String
  status : Status
  montant_facture : Option ℚ
  evaluation_reason : Option String
  recall_date : Option Int
  mar_number : Option String
  proforma_number : Option String
  payment_justification_path : Option String
  invoiced_at : Option Int
  invoiced_by : Option Nat
  created_at : Int
  user_id : Option Nat
  deriving DecidableEq, Repr

/-- src/models.py StatusHistory (lines 156-172): an append-only record of
one workflow transition, used only by the temporal KPI engine. -/
structure StatusHistory where
  file_id : Nat
  old_status : Option Status
  new_status : Status
  changed_at : Int
  changed_by : Option Nat
  deriving DecidableEq, Repr

/-- src/models.py Notification: an in-app message for one user, with an
optional related case. created_at is a day number so that the recall
scan comparison of a timestamp against the current date embeds as an
integer comparison. -/
structure Notification where
  message : String
  user_id : Nat
  file_id : Option Nat
  notification_type : String
  read_status : Bool
  created_at : Int
  deriving DecidableEq, Repr

/-- The single shared validation failure of src/utils/validation.py
(ValidationError carrying a human-readable message) is modelled as the
error branch of Except. -/
abbrev ValidationResult (α : Type) := Except String α

/-- The role list of src/utils/validation.py validate_role (line 147);
the source omits the evaluator role from it. -/
def valid_roles : List String := ["user", "admin", "invoicing", "affecteur"]

/-- src/utils/validation.py Validator.validate_role (lines 144-152). -/
def validate_role (role : String) : ValidationResult String :=
  if role ∈ valid_roles then Except.ok role else Except.error "Rôle invalide."

/-- C10: the role validator accepts exactly the four strings user, admin,
invoicing and affecteur, returning the input unchanged, and raises a
validation error for every other string, including the evaluator role. -/
theorem validate_role_accepts_exactly_four :
    (∀ r : String, validate_role r = Except.ok r ↔ r ∈ valid_roles) ∧
      (∀ r : String, r ∉ valid_roles →
        validate_role r = Except.error "Rôle invalide.") ∧
      validate_role "évaluateur" = Except.error "Rôle invalide." := by
  refine ⟨fun r => ?_, fun r hr => ?_, by rfl⟩
  · by_cases h : r ∈ valid_roles <;> simp [validate_role, h]
  · simp [validate_role, hr]

/-- Outcome of the self-assign action of src/routes/user.py
self_assign_file (lines 377-418): a rejection flash that leaves the case
untouched, or the updated case together with the single status-history
row the handler appends. -/
inductive AssignResult where
  | rejected
  | assigned (f : File) (h : StatusHistory)
  deriving DecidableEq, Repr

/-- src/routes/user.py self_assign_file (lines 377-418): the acting user
claims a payed, unowned case; the case is rejected unchanged when its
status is not payed or it already has an owner. -/
def self_assign_file (uid : Nat) (now : Int) (f : File) : AssignResult :=
  if f.status ≠ Status.payed then AssignResult.rejected
  else if f.user_id ≠ none then AssignResult.rejected
  else
    AssignResult.assigned
      { f with user_id := some uid, status := Status.enCoursTraitement }
      { file_id := f.id, old_status := some f.status,
        new_status := Status.enCoursTraitement, changed_at := now,
        changed_by := some uid }

/-- C4: self-assignment is rejected, the case unchanged, whenever the
case is not payed or already owned; self-assigning an unowned payed case
sets the acting user as owner, moves the status to processing, and
appends exactly one status-history row from payed to processing. -/
theorem self_assign_file_spec (uid : Nat) (now : Int) (f : File) :
    (f.status ≠ Status.payed ∨ f.user_id ≠ none →
        self_assign_file uid now f = AssignResult.rejected) ∧
      (f.status = Status.payed → f.user_id = none →
        self_assign_file uid now f =
          AssignResult.assigned
            { f with user_id := some uid, status := Status.enCoursTraitement }
            { file_id := f.id, old_status := some Status.payed,
              new_status := Status.enCoursTraitement, changed_at := now,
              changed_by := some uid }) := by
  constructor
  · intro h
    by_cases hs : f.status = Status.payed
    · rcases h with h | h
      · exact absurd hs h
      · simp [self_assign_file, hs, h]
    · simp [self_assign_file, hs]
  · intro h1 h2
    simp [self_assign_file, h1, h2]

/-- The montant form field of the evaluate form of src/routes/evaluator.py
(line 106), after strip: an empty string, a string that float() rejects,
or the parsed numeric value (source floats modelled as rationals). -/
inductive MontantField where
  | empty
  | invalid
  | num (q : ℚ)
  deriving DecidableEq

/-- Outcome of src/routes/evaluator.py evaluate_file on POST: a redirect
when the precondition fails (case not pending, or not owned by the
caller), a re-rendered form on a validation error - the case unchanged in
both - or the updated case, the single history row the handler appends
and the notifications it creates. -/
inductive EvalResult where
  | precondFailed
  | formError
  | done (f : File) (h : StatusHistory) (notifs : List Notification)
  deriving DecidableEq

/-- The in-app notifications src/routes/evaluator.py evaluate_file (lines
162-172) creates for every invoicing-role user when a case becomes ready
to invoice (the source message also renders the amount; the embedding
keeps the case number, which is all the claims read). -/
def invoicing_notifs (users : List User) (f : File) (now : Int) :
    List Notification :=
  (users.filter (fun u => u.role = "invoicing")).map (fun u =>
    { message := "Nouveau dossier prêt à facturer: " ++ f.file_number,
      user_id := u.id, file_id := some f.id, notification_type := "info",
      read_status := false, created_at := now })

/-- src/routes/evaluator.py evaluate_file (lines 91-186), POST branch:
guards (pending status, ownership), decision and amount validation, then
the decision, amount, status, history row and invoicing notifications.
The float conversion of the amount is only attempted when the decision is
soumis; a negative parsed value raises like a malformed string. -/
def evaluate_file (users : List User) (uid : Nat) (now : Int) (f : File)
    (decision : String) (montant : MontantField) : EvalResult :=
  if f.status ≠ Status.enAttenteEvaluation then EvalResult.precondFailed
  else if f.user_id ≠ some uid then EvalResult.precondFailed
  else if decision ∉ ["soumis", "non_soumis", "dispense"] then
    EvalResult.formError
  else if decision = "soumis" ∧ montant = MontantField.empty then
    EvalResult.formError
  else
    let parsed : Option (Option ℚ) :=
      if decision = "soumis" then
        match montant with
        | MontantField.num q => if q < 0 then none else some (some q)
        | _ => none
      else some none
    match parsed with
    | none => EvalResult.formError
    | some m =>
      let new_status :=
        if decision = "soumis" then Status.readyToInvoice else Status.finalized
      let f2 :=
        { f with evaluation_reason := some decision, montant_facture := m,
                 status := new_status }
      let hist : StatusHistory :=
        { file_id := f.id, old_status := some f.status,
          new_status := new_status, changed_at := now, changed_by := some uid }
      let notifs :=
        if new_status = Status.readyToInvoice then invoicing_notifs users f now
        else []
      EvalResult.done f2 hist notifs

/-- C1: on a pending case owned by the acting evaluator, decision soumis
with a non-negative amount moves the case to ready-to-invoice and stores
the amount in montant_facture; decisions non_soumis and dispense move it
to Finalized and clear montant_facture; every branch stores the decision
in evaluation_reason and appends one status-history row recording the
transition out of the pending status. -/
theorem evaluate_file_branching (users : List User) (uid : Nat) (now : Int)
    (f : File) (q : ℚ) (hst : f.status = Status.enAttenteEvaluation)
    (hown : f.user_id = some uid) (hq : 0 ≤ q) :
    (evaluate_file users uid now f "soumis" (MontantField.num q) =
        EvalResult.done
          { f with evaluation_reason := some "soumis",
                   montant_facture := some q, status := Status.readyToInvoice }
          { file_id := f.id, old_status := some Status.enAttenteEvaluation,
            new_status := Status.readyToInvoice, changed_at := now,
            changed_by := some uid }
          (invoicing_notifs users f now)) ∧
      (∀ m : MontantField, ∀ d ∈ ["non_soumis", "dispense"],
        evaluate_file users uid now f d m =
          EvalResult.done
            { f with evaluation_reason := some d, montant_facture := none,
                     status := Status.finalized }
            { file_id := f.id, old_status := some Status.enAttenteEvaluation,
              new_status := Status.finalized, changed_at := now,
              changed_by := some uid }
            []) := by
  constructor
  · simp [evaluate_file, hst, hown, not_lt.mpr hq]
  · intro m d hd
    simp only [List.mem_cons, List.not_mem_nil, or_false] at hd
    rcases hd with hd | hd <;> subst hd <;> simp [evaluate_file, hst, hown]

/-- A concrete pending case owned by user 1, used by witnesses. -/
def pendingCase : File :=
  { id := 7, file_number := "VOC-2025-001", receipt_date := 0,
    importer := "Company A", exporter := "Exporter X", country := "France",
    route := "A", sor_number := none, sol_number := none,
    status := Status.enAttenteEvaluation, montant_facture := none,
    evaluation_reason := none, recall_date := none, mar_number := none,
    proforma_number := none, payment_justification_path := none,
    invoiced_at := none, invoiced_by := none, created_at := 0,
    user_id := some 1 }

/-- Witness for C1: the branching theorem applied to a concrete pending
case, a concrete evaluator and the amount 100. -/
theorem evaluate_file_branching_witness :
    evaluate_file [] 1 0 pendingCase "soumis" (MontantField.num 100) =
      EvalResult.done
        { pendingCase with evaluation_reason := some "soumis",
                           montant_facture := some 100,
                           status := Status.readyToInvoice }
        { file_id := pendingCase.id,
          old_status := some Status.enAttenteEvaluation,
          new_status := Status.readyToInvoice, changed_at := 0,
          changed_by := some 1 }
        (invoicing_notifs [] pendingCase 0) :=
  (evaluate_file_branching [] 1 0 pendingCase 100 rfl rfl (by norm_num)).1

/-- src/models.py File.can_be_invoiced (lines 107-109). -/
def can_be_invoiced (f : File) : Bool :=
  decide (f.status = Status.readyToInvoice)

/-- Python truthiness of an optional string column: None and the empty
string are falsy, every other string truthy. -/
def truthy : Option String → Bool
  | none => false
  | some s => !s.isEmpty

/-- src/models.py File.is_invoiced (lines 111-113): payed with both
invoice reference numbers set. -/
def is_invoiced (f : File) : Bool :=
  decide (f.status = Status.payed) && truthy f.mar_number &&
    truthy f.proforma_number

/-- The POST form of src/routes/invoice.py process_invoice: the two
reference numbers after strip, and the selected payment file (none models
a missing upload or an empty filename). -/
structure InvoiceForm where
  mar_number : String
  proforma_number : String
  payment_filename : Option String
  deriving DecidableEq, Repr

/-- The payment-file extension check of src/routes/invoice.py (lines
110-114): the lower-cased filename must contain a dot and its part after
the last dot must be an allowed extension. -/
def payment_filename_ok (fn : String) : Bool :=
  let filename := fn.toLower
  let allowed := ["pdf", "doc", "docx", "jpg", "jpeg", "png"]
  filename.contains '.' && allowed.contains ((filename.splitOn ".").getLastD "")

/-- The extension, dot included, that os.path.splitext keeps of the
sanitized filename (src/routes/invoice.py line 129). -/
def splitext_ext (fn : String) : String :=
  if fn.contains '.' then "." ++ (fn.splitOn ".").getLastD "" else ""

/-- The storage path of the payment proof (src/routes/invoice.py lines
123-131): the uploads/payments directory, the case number and a
timestamp (the source renders the timestamp with strftime; the embedding
renders the abstract instant directly). -/
def payment_path (file_number : String) (now : Int) (ext : String) : String :=
  "uploads/payments/" ++ file_number ++ "_" ++ toString now ++ ext

/-- The slice of the data store src/routes/invoice.py process_invoice
touches or could touch: the case, the user table, the status-history
table and the notification table. -/
structure InvoiceDb where
  file : File
  users : List User
  history : List StatusHistory
  notifications : List Notification
  deriving DecidableEq, Repr

/-- Outcome tag of process_invoice: a redirect when the case cannot be
invoiced or is already invoiced, a re-rendered form on a validation
error, a storage failure when the owner notification cannot be built
(unowned case: its insert raises and only the notification commit rolls
back, the case update having been committed first), or success. -/
inductive InvOutcome where
  | precondFailed
  | formError
  | storageError
  | success
  deriving DecidableEq, Repr

/-- src/routes/invoice.py process_invoice (lines 73-185), POST branch:
guards, field validation, payment-proof storage, the case update
(upper-cased reference numbers, payed status, invoicing stamp), then the
owner and admin notifications. The handler contains no StatusHistory
write, so the history table is carried through unchanged on every path. -/
def process_invoice (uid : Nat) (now : Int) (db : InvoiceDb)
    (form : InvoiceForm) : InvoiceDb × InvOutcome :=
  if ¬ can_be_invoiced db.file then (db, InvOutcome.precondFailed)
  else if is_invoiced db.file then (db, InvOutcome.precondFailed)
  else
    let errors :=
      (if form.mar_number.isEmpty then ["Numéro MAR requis."]
       else if form.mar_number.length < 3 ∨ 100 < form.mar_number.length then
         ["Numéro MAR invalide (3-100 caractères)."]
       else []) ++
      (if form.proforma_number.isEmpty then ["Numéro ProForma requis."]
       else if form.proforma_number.length < 3 ∨ 100 < form.proforma_number.length then
         ["Numéro ProForma invalide (3-100 caractères)."]
       else []) ++
      (match form.payment_filename with
       | none => ["Justificatif de paiement requis."]
       | some fn =>
         if payment_filename_ok fn then []
         else ["Format de fichier non autorisé (PDF, DOC, DOCX, JPG, PNG uniquement)."])
    if errors ≠ [] then (db, InvOutcome.formError)
    else
      match form.payment_filename with
      | none => (db, InvOutcome.formError)
      | some fn =>
        let f2 :=
          { db.file with
              mar_number := some form.mar_number.toUpper,
              proforma_number := some form.proforma_number.toUpper,
              payment_justification_path :=
                some (payment_path db.file.file_number now (splitext_ext fn)),
              status := Status.payed,
              invoiced_at := some now,
              invoiced_by := some uid }
        match db.file.user_id with
        | none => ({ db with file := f2 }, InvOutcome.storageError)
        | some owner_id =>
          let owner_notif : Notification :=
            { message := "Facturation terminée pour le dossier " ++ db.file.file_number,
              user_id := owner_id, file_id := some db.file.id,
              notification_type := "info", read_status := false,
              created_at := now }
          let admin_notifs :=
            (db.users.filter (fun u => u.role = "admin")).map (fun a =>
              { message := "Dossier " ++ db.file.file_number ++ " facturé",
                user_id := a.id, file_id := some db.file.id,
                notification_type := "info", read_status := false,
                created_at := now })
          let db2 :=
            { db with file := f2,
                      notifications :=
                        db.notifications ++ owner_notif :: admin_notifs }
          (db2, InvOutcome.success)

/-- C7: process_invoice never writes the status-history table, on any
path - so the ready-to-invoice to payed transition never reaches the data
the temporal KPI engine reads - and on a ready-to-invoice case with valid
inputs and an owner it succeeds, sets the status to payed, stores both
reference numbers upper-cased, and stamps invoiced_at and the acting
invoicing agent. -/
theorem process_invoice_spec (uid : Nat) (now : Int) (db : InvoiceDb)
    (form : InvoiceForm) :
    ((process_invoice uid now db form).1.history = db.history) ∧
      (can_be_invoiced db.file = true →
        3 ≤ form.mar_number.length → form.mar_number.length ≤ 100 →
        3 ≤ form.proforma_number.length → form.proforma_number.length ≤ 100 →
        ∀ fn, form.payment_filename = some fn → payment_filename_ok fn = true →
        ∀ o, db.file.user_id = some o →
          (process_invoice uid now db form).2 = InvOutcome.success ∧
          (process_invoice uid now db form).1.file.status = Status.payed ∧
          (process_invoice uid now db form).1.file.mar_number =
            some form.mar_number.toUpper ∧
          (process_invoice uid now db form).1.file.proforma_number =
            some form.proforma_number.toUpper ∧
          (process_invoice uid now db form).1.file.invoiced_at = some now ∧
          (process_invoice uid now db form).1.file.invoiced_by = some uid) := by
  constructor
  · unfold process_invoice
    repeat' split
    all_goals rfl
  · intro hcan hm1 hm2 hp1 hp2 fn hfn hok o ho
    have hst : db.file.status = Status.readyToInvoice := by
      simpa [can_be_invoiced] using hcan
    have hinv : is_invoiced db.file = false := by
      simp [is_invoiced, hst]
    have hm0 : form.mar_number.isEmpty = false := by
      cases h : form.mar_number.isEmpty
      · rfl
      · rw [(String.isEmpty_iff form.mar_number).mp h] at hm1
        exact absurd hm1 (by decide)
    have hp0 : form.proforma_number.isEmpty = false := by
      cases h : form.proforma_number.isEmpty
      · rfl
      · rw [(String.isEmpty_iff form.proforma_number).mp h] at hp1
        exact absurd hp1 (by decide)
    have hmr : ¬(form.mar_number.length < 3 ∨ 100 < form.mar_number.length) := by
      omega
    have hpr : ¬(form.proforma_number.length < 3 ∨ 100 < form.proforma_number.length) := by
      omega
    simp [process_invoice, hcan, hinv, hm0, hp0, hmr, hpr, hfn, hok, ho]

/-- An ASCII whitespace character, as Python str.strip removes. -/
def is_space (c : Char) : Bool := c = ' ' || c = '\t' || c = '\n' || c = '\r'

/-- Python str.strip on the ASCII range: leading and trailing whitespace
removed. -/
def str_trim (s : String) : String :=
  String.mk (((s.data.dropWhile is_space).reverse.dropWhile is_space).reverse)

/-- Python str.upper on the ASCII range: every letter upper-cased. -/
def str_upper (s : String) : String := String.mk (s.data.map Char.toUpper)

/-- A receipt-date cell of the dispatcher spreadsheet as
src/routes/affecteur.py upload_excel parses it (lines 127-133): a value
the handler turns into a date (a native date cell, or a well-formed
YYYY-MM-DD string), or a string strptime rejects, which makes the row
error out through the per-row exception handler. -/
inductive DateCell where
  | parsed (d : Int)
  | malformed
  deriving DecidableEq, Repr

/-- One data row of the dispatcher upload, holding the raw cell texts
(str()-converted) of the six required columns plus the optional SOR/SOL
cells, which the extraction at lines 114-115 already reduces to none for
an absent or falsy cell and to the stripped text otherwise. -/
structure XlsRow where
  file_number : String
  receipt_date : DateCell
  importer : String
  exporter : String
  country : String
  route : String
  sor_number : Option String
  sol_number : Option String
  deriving DecidableEq, Repr

/-- Python falsiness of an optional SOR/SOL value: absent or empty. -/
def opt_blank : Option String → Bool
  | none => true
  | some s => s.isEmpty

/-- Per-row outcome of src/routes/affecteur.py upload_excel (lines
105-166): the row is silently skipped (blank or placeholder case
number), recorded as a row error (no case created), or a new case is
added to the session. -/
inductive RowResult where
  | skipped
  | rowError (msg : String)
  | created (f : File)
  deriving DecidableEq, Repr

/-- The body of the per-row loop of src/routes/affecteur.py upload_excel
(lines 105-166): trims the case number, upper-cases the trimmed route,
skips blank rows, rejects duplicates, parses the date, enforces the
route-B/SOR and route-C/SOL rules, and otherwise creates the case
unassigned with the initial pending status. existing is the set of case
numbers already in the files table; now stands for the created_at column
default. -/
def upload_excel_row (existing : List String) (now : Int) (r : XlsRow) :
    RowResult :=
  let file_number := str_trim r.file_number
  let route := str_upper (str_trim r.route)
  if file_number = "" ∨ file_number = "None" then RowResult.skipped
  else if file_number ∈ existing then
    RowResult.rowError ("Numéro de dossier " ++ file_number ++ " existe déjà")
  else
    match r.receipt_date with
    | DateCell.malformed => RowResult.rowError "Erreur"
    | DateCell.parsed d =>
      if route = "B" ∧ opt_blank r.sor_number then
        RowResult.rowError "SOR requis pour Route B"
      else if route = "C" ∧ opt_blank r.sol_number then
        RowResult.rowError "SOL requis pour Route C"
      else
        RowResult.created
          { id := 0, file_number := file_number, receipt_date := d,
            importer := str_trim r.importer, exporter := str_trim r.exporter,
            country := str_trim r.country, route := route,
            sor_number := r.sor_number, sol_number := r.sol_number,
            status := Status.enAttenteEvaluation, montant_facture := none,
            evaluation_reason := none, recall_date := none,
            mar_number := none, proforma_number := none,
            payment_justification_path := none, invoiced_at := none,
            invoiced_by := none, created_at := now, user_id := none }

/-- A fresh upload row whose route cell reads d, upper-cased to D by the
handler: a route outside A, B, C. -/
def rowRouteD : XlsRow :=
  { file_number := "VOC-9999", receipt_date := DateCell.parsed 20000,
    importer := "Company D", exporter := "Exporter D", country := "Chile",
    route := "d", sor_number := none, sol_number := none }

/-- C2 (code bug): the upload loop never checks that the route is one of
A, B, C - a row whose upper-cased route is D sails through and creates an
unassigned pending case with route D instead of being recorded as a row
error, contradicting the A/B/C route invariant documented at
src/models.py line 51 and enforced by validate_route on the manual
creation path. -/
theorem upload_excel_row_accepts_route_d :
    upload_excel_row [] 0 rowRouteD =
      RowResult.created
        { id := 0, file_number := "VOC-9999", receipt_date := 20000,
          importer := "Company D", exporter := "Exporter D",
          country := "Chile", route := "D", sor_number := none,
          sol_number := none, status := Status.enAttenteEvaluation,
          montant_facture := none, evaluation_reason := none,
          recall_date := none, mar_number := none, proforma_number := none,
          payment_justification_path := none, invoiced_at := none,
          invoiced_by := none, created_at := 0, user_id := none } ∧
      "D" ∉ ["A", "B", "C"] := by
  constructor
  · rfl
  · decide

/-- src/utils/upload.py FileAttachment: the metadata record of a generic
upload. file_size is declared an integer byte count, but the
human_readable_size property divides the attribute itself by 1024.0, so
the field is modelled as a rational. -/
structure FileAttachment where
  filename : String
  original_filename : String
  file_size : ℚ
  file_id : Nat
  deriving DecidableEq, Repr

/-- Python %.1f rendering of a non-negative number: one digit after the
decimal point (ties rounded as by the round function; the witnesses stay
away from ties, where CPython rounds half to even). -/
def fmt1 (q : ℚ) : String :=
  let n : Int := round (q * 10)
  toString (n / 10) ++ "." ++ toString (n % 10)

/-- The unit loop of src/utils/upload.py human_readable_size (lines
36-43): walk the units B, KB, MB, GB, returning as soon as the running
size is below 1024 and otherwise dividing the stored file_size attribute
itself by 1024 - the attachment record is mutated in place, so the
result carries the updated record. -/
def hrs_go : List String → FileAttachment → String × FileAttachment
  | [], a => (fmt1 a.file_size ++ " TB", a)
  | unit :: rest, a =>
    if a.file_size < 1024 then (fmt1 a.file_size ++ " " ++ unit, a)
    else hrs_go rest { a with file_size := a.file_size / 1024 }

/-- src/utils/upload.py FileAttachment.human_readable_size (lines 36-43),
returning the rendered string together with the attachment record as the
property leaves it. -/
def human_readable_size (a : FileAttachment) : String × FileAttachment :=
  hrs_go ["B", "KB", "MB", "GB"] a

/-- A 2048-byte attachment. -/
def att2048 : FileAttachment :=
  { filename := "doc_20250101.pdf", original_filename := "doc.pdf",
    file_size := 2048, file_id := 7 }

/-- C9 (code bug): rendering the human-readable size of a 2048-byte
attachment returns 2.0 KB but divides the stored file_size down to 2 on
the way, so a second rendering of the same attachment returns 2.0 B; the
property mutates the record instead of leaving file_size unchanged. -/
theorem human_readable_size_mutates :
    (human_readable_size att2048).1 = "2.0 KB" ∧
      (human_readable_size att2048).2.file_size = 2 ∧
      (human_readable_size (human_readable_size att2048).2).1 = "2.0 B" := by
  have e1 : human_readable_size att2048 =
      ("2.0 KB", { att2048 with file_size := 2 }) := by
    norm_num [human_readable_size, hrs_go, att2048, fmt1, round_eq]
    decide
  have e2 : human_readable_size { att2048 with file_size := 2 } =
      ("2.0 B", { att2048 with file_size := 2 }) := by
    norm_num [human_readable_size, hrs_go, att2048, fmt1, round_eq]
    decide
  refine ⟨by rw [e1], by rw [e1], by rw [e1, e2]⟩

/-- A calendar date, as the date columns of the model store it. -/
structure DateD where
  year : Nat
  month : Nat
  day : Nat
  deriving DecidableEq, Repr

/-- A timestamp with the fields strftime renders for the export
(%d/%m/%Y %H:%M). -/
structure DateTimeD where
  date : DateD
  hour : Nat
  minute : Nat
  deriving DecidableEq, Repr

/-- Two-digit zero-padded rendering, as strftime %d, %m, %H and %M. -/
def pad2 (n : Nat) : String := if n < 10 then "0" ++ toString n else toString n

/-- Four-digit zero-padded rendering, as CPython strftime %Y. -/
def pad4 (n : Nat) : String :=
  if n < 10 then "000" ++ toString n
  else if n < 100 then "00" ++ toString n
  else if n < 1000 then "0" ++ toString n
  else toString n

/-- strftime of a date with format DD/MM/YYYY (src/utils/export.py). -/
def fmt_date (d : DateD) : String :=
  pad2 d.day ++ "/" ++ pad2 d.month ++ "/" ++ pad4 d.year

/-- strftime of a timestamp with format DD/MM/YYYY HH:MM. -/
def fmt_datetime (t : DateTimeD) : String :=
  fmt_date t.date ++ " " ++ pad2 t.hour ++ ":" ++ pad2 t.minute

/-- The string literal src/models.py persists for each workflow status
(apostrophes written as the escape \x27). -/
def status_str : Status → String
  | Status.enAttenteEvaluation => "en attente d\x27évaluation"
  | Status.enCoursEvaluation => "en cours d\x27évaluation"
  | Status.readyToInvoice => "ready to invoice"
  | Status.payed => "payed"
  | Status.enCoursTraitement => "en cours de traitement"
  | Status.aCompleter => "à compléter"
  | Status.transfertInspection => "transfert à l\x27inspection"
  | Status.finalized => "Finalized"

/-- src/models.py CoCDetails: the one-to-one certificate record of a
finalized case, as the exporter reads it. -/
structure CocRec where
  coc_number : String
  coc_date : DateD
  invoice_number : String
  deriving DecidableEq, Repr

/-- A case as src/utils/export.py export_files_to_csv reads it: the model
columns it renders, with the owner and CoC relationships resolved (none
when the foreign key is null). Dates are calendar dates here because the
exporter renders them with strftime. -/
structure ExportFile where
  file_number : String
  receipt_date : DateD
  importer : String
  exporter : String
  country : String
  route : String
  sor_number : Option String
  sol_number : Option String
  status : Status
  recall_date : Option DateD
  owner : Option User
  created_at : DateTimeD
  updated_at : DateTimeD
  coc : Option CocRec
  deriving DecidableEq, Repr

/-- The header row src/utils/export.py export_files_to_csv writes
(lines 22-40). -/
def export_files_header : List String :=
  ["Numéro Dossier", "Date Réception", "Importateur", "Exportateur",
   "Pays", "Route", "Numéro SOR", "Numéro SOL", "Statut", "Date Rappel",
   "Utilisateur", "Email Utilisateur", "Date Création",
   "Dernière Modification", "CoC Numéro", "CoC Date", "Facture Numéro"]

/-- The data row src/utils/export.py export_files_to_csv writes for one
case (lines 43-62), given the owner record the source dereferences
unconditionally. -/
def file_csv_row (f : ExportFile) (u : User) : List String :=
  [f.file_number,
   fmt_date f.receipt_date,
   f.importer, f.exporter, f.country, f.route,
   f.sor_number.getD "", f.sol_number.getD "",
   status_str f.status,
   (match f.recall_date with | some d => fmt_date d | none => ""),
   u.username, u.email,
   fmt_datetime f.created_at, fmt_datetime f.updated_at,
   (match f.coc with | some c => c.coc_number | none => ""),
   (match f.coc with | some c => fmt_date c.coc_date | none => ""),
   (match f.coc with | some c => c.invoice_number | none => "")]

/-- src/utils/export.py export_files_to_csv (lines 8-64), rendered as the
list of CSV records (header row first): a case with no owner makes the
source fault on the unconditional owner dereference, modelled as the
error branch. -/
def export_files_to_csv (files : List ExportFile) :
    Except Unit (List (List String)) := do
  let rows ← files.mapM (fun f =>
    match f.owner with
    | none => Except.error ()
    | some u => Except.ok (file_csv_row f u))
  Except.ok (export_files_header :: rows)

/-- C8: exporting no cases yields the header row alone; exporting one
case with an owner and a CoC record yields the header plus exactly one
data row of 17 columns in the documented order, receipt, recall and CoC
dates rendered DD/MM/YYYY and the creation and update timestamps
DD/MM/YYYY HH:MM. -/
theorem export_files_to_csv_shape :
    (export_files_to_csv [] = Except.ok [export_files_header]) ∧
      export_files_header.length = 17 ∧
      (∀ f u c, f.owner = some u → f.coc = some c →
        export_files_to_csv [f] =
          Except.ok [export_files_header, file_csv_row f u] ∧
        (file_csv_row f u).length = 17 ∧
        (file_csv_row f u)[1]? = some (fmt_date f.receipt_date) ∧
        (file_csv_row f u)[9]? =
          some (match f.recall_date with | some d => fmt_date d | none => "") ∧
        (file_csv_row f u)[12]? = some (fmt_datetime f.created_at) ∧
        (file_csv_row f u)[13]? = some (fmt_datetime f.updated_at) ∧
        (file_csv_row f u)[14]? = some c.coc_number ∧
        (file_csv_row f u)[15]? = some (fmt_date c.coc_date)) := by
  refine ⟨rfl, rfl, fun f u c hu hc => ?_⟩
  refine ⟨?_, rfl, rfl, rfl, rfl, rfl, ?_, ?_⟩
  · simp [export_files_to_csv, List.mapM, List.mapM.loop, hu]
    rfl
  · simp [file_csv_row, hc]
  · simp [file_csv_row, hc]

/-- A concrete fully-populated case for the export witness. -/
def exportCase : ExportFile :=
  { file_number := "VOC-2024-042", receipt_date := ⟨2024, 3, 5⟩,
    importer := "Company A", exporter := "Exporter X", country := "France",
    route := "B", sor_number := some "SOR-123", sol_number := none,
    status := Status.finalized, recall_date := some ⟨2024, 12, 1⟩,
    owner := some ⟨3, "alice", "alice@example.com", "user"⟩,
    created_at := ⟨⟨2024, 3, 5⟩, 9, 7⟩, updated_at := ⟨⟨2024, 4, 18⟩, 16, 30⟩,
    coc := some ⟨"COC-77", ⟨2024, 4, 18⟩, "INV-55"⟩ }

/-- Witness for C8: the shape theorem applied to a concrete case, whose
rendered row carries the concrete DD/MM/YYYY and DD/MM/YYYY HH:MM
strings. -/
theorem export_files_to_csv_shape_witness :
    export_files_to_csv [exportCase] =
      Except.ok [export_files_header,
        ["VOC-2024-042", "05/03/2024", "Company A", "Exporter X", "France",
         "B", "SOR-123", "", "Finalized", "01/12/2024", "alice",
         "alice@example.com", "05/03/2024 09:07", "18/04/2024 16:30",
         "COC-77", "18/04/2024", "INV-55"]] ∧
      (file_csv_row exportCase ⟨3, "alice", "alice@example.com", "user"⟩).length
        = 17 := by
  have h := export_files_to_csv_shape.2.2 exportCase
    ⟨3, "alice", "alice@example.com", "user"⟩
    ⟨"COC-77", ⟨2024, 4, 18⟩, "INV-55"⟩ rfl rfl
  exact ⟨h.1.trans rfl, h.2.1⟩

/-- The slice of the data store the temporal KPI engine of
src/utils/kpi.py reads: the case table and the status-history table. -/
structure KpiDb where
  files : List File
  history : List StatusHistory
  deriving DecidableEq, Repr

/-- One bucket of the weekly trend of src/utils/kpi.py get_weekly_trend:
the bucket bounds as day numbers (the source renders them into the week
label) and the two counts. -/
structure TrendEntry where
  week_start : Int
  week_end : Int
  created : Nat
  finalized : Nat
  deriving DecidableEq, Repr

/-- Count of cases created within [a, b) (bounds are day numbers, the
created_at column counts seconds), as the File.created_at filter of
src/utils/kpi.py lines 89-94. -/
def count_created (db : KpiDb) (a b : Int) : Nat :=
  (db.files.filter (fun f =>
    decide (a * 86400 ≤ f.created_at) && decide (f.created_at < b * 86400))).length

/-- Count of history entries entering Finalized within [a, b), as the
StatusHistory filter of src/utils/kpi.py lines 96-102. -/
def count_finalized (db : KpiDb) (a b : Int) : Nat :=
  (db.history.filter (fun e =>
    decide (e.new_status = Status.finalized) &&
      decide (a * 86400 ≤ e.changed_at) &&
      decide (e.changed_at < b * 86400))).length

/-- The bucket record built for one loop turn of get_weekly_trend. -/
def weekly_entry (db : KpiDb) (a b : Int) : TrendEntry :=
  { week_start := a, week_end := b, created := count_created db a b,
    finalized := count_finalized db a b }

/-- src/utils/kpi.py TemporalKPI.get_weekly_trend (lines 79-110): one
bucket per trailing week, built most-recent first and reversed before
returning. -/
def get_weekly_trend (weeks : Nat) (db : KpiDb) (today : Int) :
    List TrendEntry :=
  ((List.range weeks).map (fun i =>
    weekly_entry db (today - 7 * ((i : Int) + 1)) (today - 7 * (i : Int)))).reverse

/-- get_weekly_trend invoked with its default argument: the source
signature is get_weekly_trend(weeks=4). -/
def get_weekly_trend_default (db : KpiDb) (today : Int) : List TrendEntry :=
  get_weekly_trend 4 db today

/-- An empty KPI data store. -/
def kpiDb0 : KpiDb := { files := [], history := [] }

/-- C6 counterexample: invoked with its default argument the weekly trend
returns 4 buckets, not 8 - the source default is weeks=4 and only the KPI
route passes weeks=8 explicitly. -/
theorem get_weekly_trend_default_four_buckets :
    (get_weekly_trend_default kpiDb0 0).length = 4 ∧
      (get_weekly_trend_default kpiDb0 0).length ≠ 8 := by
  constructor
  · rfl
  · decide

/-- C6 as amended: invoked with its default argument the weekly trend
returns exactly 4 week-long buckets, oldest first, each bucket holding
the count of cases created and of Finalized-entering history entries
whose timestamps fall within its bounds. -/
theorem get_weekly_trend_default_spec (db : KpiDb) (today : Int) :
    get_weekly_trend_default db today =
      [weekly_entry db (today - 28) (today - 21),
       weekly_entry db (today - 21) (today - 14),
       weekly_entry db (today - 14) (today - 7),
       weekly_entry db (today - 7) today] := by
  simp [get_weekly_trend_default, get_weekly_trend, List.range_succ]

/-- The stage list of src/utils/kpi.py get_average_time_by_stage (lines
39-47): seven statuses - the needs-completion status is absent from it. -/
def stages : List Status :=
  [Status.enAttenteEvaluation, Status.enCoursEvaluation,
   Status.readyToInvoice, Status.payed, Status.enCoursTraitement,
   Status.transfertInspection, Status.finalized]

/-- The entry row src/utils/kpi.py lines 64-67 pairs an exit with: among
all history rows of the case entering the stage, the one with the
greatest changed_at (order_by desc, first) - with no restriction to rows
before the exit. Ties keep the earlier row, as a stable sort would. -/
def latest_entry (hist : List StatusHistory) (fid : Nat) (stage : Status) :
    Option StatusHistory :=
  (hist.filter (fun e =>
    decide (e.file_id = fid) && decide (e.new_status = stage))).foldl
    (fun acc e =>
      match acc with
      | none => some e
      | some b => if b.changed_at < e.changed_at then some e else some b)
    none

/-- Python round(x, 1) (the witnesses stay away from ties, where CPython
rounds half to even). -/
def round1 (q : ℚ) : ℚ := ((round (q * 10) : ℤ) : ℚ) / 10

/-- The contribution of one exit row to the stage average (src/utils/kpi.py
lines 62-73): none when the case has no entry row for the stage or the
elapsed time is negative, the elapsed fractional days otherwise. -/
def stage_delta (hist : List StatusHistory) (stage : Status)
    (t : StatusHistory) : Option ℚ :=
  match latest_entry hist t.file_id stage with
  | none => none
  | some entry =>
    let delta : ℚ := (((t.changed_at - entry.changed_at : Int)) : ℚ) / 86400
    if 0 ≤ delta then some delta else none

/-- The body of the per-stage loop of src/utils/kpi.py
get_average_time_by_stage (lines 51-75): transitions out of the stage,
the total/count accumulation skipping missing entries and negative
deltas, the rounded average, and None when nothing was counted. -/
def stage_avg (hist : List StatusHistory) (stage : Status) : Option ℚ :=
  let transitions := hist.filter (fun e => decide (e.old_status = some stage))
  if transitions.isEmpty then none
  else
    let tc := transitions.foldl (fun (acc : ℚ × Nat) t =>
      match stage_delta hist stage t with
      | none => acc
      | some d => (acc.1 + d, acc.2 + 1)) ((0 : ℚ), (0 : Nat))
    if 0 < tc.2 then some (round1 (tc.1 / (tc.2 : ℚ))) else none

/-- src/utils/kpi.py TemporalKPI.get_average_time_by_stage (lines 36-77):
the per-stage averages over the seven listed stages. -/
def get_average_time_by_stage (hist : List StatusHistory) :
    List (Status × Option ℚ) :=
  stages.map (fun s => (s, stage_avg hist s))

/-- Modelled from the claim wording for comparison: the entry row paired
with an exit at instant t is the most recent entry into the stage
strictly before t. Only latest_entry_before differs from latest_entry. -/
def latest_entry_before (hist : List StatusHistory) (fid : Nat)
    (stage : Status) (t : Int) : Option StatusHistory :=
  (hist.filter (fun e =>
    decide (e.file_id = fid) && decide (e.new_status = stage) &&
      decide (e.changed_at < t))).foldl
    (fun acc e =>
      match acc with
      | none => some e
      | some b => if b.changed_at < e.changed_at then some e else some b)
    none

/-- The claim-side per-stage average: as stage_avg, but pairing each exit
with the most recent entry before it. -/
def stage_avg_claim (hist : List StatusHistory) (stage : Status) : Option ℚ :=
  let transitions := hist.filter (fun e => decide (e.old_status = some stage))
  if transitions.isEmpty then none
  else
    let tc := transitions.foldl (fun (acc : ℚ × Nat) t =>
      match latest_entry_before hist t.file_id stage t.changed_at with
      | none => acc
      | some entry =>
        let delta : ℚ := (((t.changed_at - entry.changed_at : Int)) : ℚ) / 86400
        if 0 ≤ delta then (acc.1 + delta, acc.2 + 1) else acc)
      ((0 : ℚ), (0 : Nat))
    if 0 < tc.2 then some (round1 (tc.1 / (tc.2 : ℚ))) else none

/-- A case that leaves a stage and later re-enters it: entered
under-evaluation at day 0, left it at day 3, re-entered at day 5
(timestamps in seconds). -/
def hist_reentry : List StatusHistory :=
  [{ file_id := 1, old_status := some Status.enAttenteEvaluation,
     new_status := Status.enCoursEvaluation, changed_at := 0,
     changed_by := none },
   { file_id := 1, old_status := some Status.enCoursEvaluation,
     new_status := Status.readyToInvoice, changed_at := 259200,
     changed_by := none },
   { file_id := 1, old_status := some Status.readyToInvoice,
     new_status := Status.enCoursEvaluation, changed_at := 432000,
     changed_by := none }]

/-- C5 counterexample: on the re-entry history the code pairs the day-3
exit from under-evaluation with the day-5 re-entry (the most recent entry
overall), discards the negative delta and reports no value for the stage,
while the pairing the claim describes (most recent entry before the exit)
would report 3.0 days. -/
theorem stage_avg_code_vs_claim :
    stage_avg hist_reentry Status.enCoursEvaluation = none ∧
      stage_avg_claim hist_reentry Status.enCoursEvaluation = some 3 := by
  constructor
  · simp +decide only [stage_avg, stage_delta, latest_entry, hist_reentry,
      round1, List.filter, List.foldl, List.isEmpty]
    norm_num
  · simp +decide only [stage_avg_claim, latest_entry_before, hist_reentry,
      round1, List.filter, List.foldl, List.isEmpty]
    norm_num [round_eq]

/-- The list of counted per-exit elapsed times for one stage: one entry
per transition out of the stage whose case has an entry row for the
stage and whose elapsed time is non-negative. -/
def stage_deltas (hist : List StatusHistory) (stage : Status) : List ℚ :=
  (hist.filter (fun e => decide (e.old_status = some stage))).filterMap
    (stage_delta hist stage)

/-- The total/count accumulation of stage_avg computes the sum and the
length of the filterMap of its per-exit contribution. -/
theorem foldl_delta_sum (dfun : StatusHistory → Option ℚ)
    (ts : List StatusHistory) (a : ℚ) (n : Nat) :
    ts.foldl (fun (acc : ℚ × Nat) t =>
      match dfun t with
      | none => acc
      | some d => (acc.1 + d, acc.2 + 1)) (a, n) =
      (a + (ts.filterMap dfun).sum, n + (ts.filterMap dfun).length) := by
  induction ts generalizing a n with
  | nil => simp
  | cons t ts ih =>
    cases h : dfun t
    · simpa [h] using ih a n
    · simp only [List.foldl_cons, h, ih, List.filterMap_cons]
      refine Prod.ext ?_ ?_
      · simp; ring
      · simp; omega

/-- stage_avg equals the rounded mean of the counted per-exit elapsed
times, and reports no value exactly when nothing was counted. -/
theorem stage_avg_eq_mean (hist : List StatusHistory) (stage : Status) :
    stage_avg hist stage =
      if (stage_deltas hist stage).isEmpty then none
      else some (round1 ((stage_deltas hist stage).sum /
        ((stage_deltas hist stage).length : ℚ))) := by
  unfold stage_avg stage_deltas
  by_cases h : (hist.filter (fun e => decide (e.old_status = some stage))).isEmpty
  · have he : hist.filter (fun e => decide (e.old_status = some stage)) = [] :=
      List.isEmpty_iff.mp h
    simp [h, he]
  · simp only [h, if_false, Bool.false_eq_true]
    rw [foldl_delta_sum]
    simp only [zero_add, Nat.zero_add]
    by_cases h2 : 0 <
        ((hist.filter (fun e => decide (e.old_status = some stage))).filterMap
          (stage_delta hist stage)).length
    · have hne : ((hist.filter (fun e => decide (e.old_status = some stage))).filterMap
          (stage_delta hist stage)).isEmpty = false := by
        cases hl : (hist.filter (fun e => decide (e.old_status = some stage))).filterMap
            (stage_delta hist stage) with
        | nil => rw [hl] at h2; simp at h2
        | cons x xs => simp
      simp [h2, hne]
    · have hl : (hist.filter (fun e => decide (e.old_status = some stage))).filterMap
          (stage_delta hist stage) = [] := by
        have := Nat.eq_zero_of_not_pos h2
        exact List.length_eq_zero.mp this
      simp [h2, hl]

/-- C5 as amended: for every stage of the seven-stage list, the engine
reports the rounded mean of the elapsed days over the transitions out of
the stage, pairing each exit with the most recent entry into the stage
overall (even when it lies after the exit) and discarding negative
deltas; a stage with no outgoing transitions, and more generally a stage
where nothing was counted, reports an absent value rather than zero. -/
theorem average_time_by_stage_amended (hist : List StatusHistory)
    (stage : Status) (hs : stage ∈ stages) :
    ((stage,
      if (stage_deltas hist stage).isEmpty then (none : Option ℚ)
      else some (round1 ((stage_deltas hist stage).sum /
        ((stage_deltas hist stage).length : ℚ)))) ∈
      get_average_time_by_stage hist) ∧
      ((hist.filter (fun e => decide (e.old_status = some stage))).isEmpty =
          true →
        (stage, (none : Option ℚ)) ∈ get_average_time_by_stage hist) := by
  constructor
  · exact List.mem_map.mpr ⟨stage, hs, by rw [stage_avg_eq_mean]⟩
  · intro h
    refine List.mem_map.mpr ⟨stage, hs, ?_⟩
    have hnone : stage_avg hist stage = none := by
      unfold stage_avg
      simp [h]
    rw [hnone]

/-- Witness for C5: the amended theorem applied to the concrete re-entry
history and the payed stage, which has no outgoing transitions there. -/
theorem average_time_by_stage_amended_witness :
    ((Status.payed,
      if (stage_deltas hist_reentry Status.payed).isEmpty then (none : Option ℚ)
      else some (round1 ((stage_deltas hist_reentry Status.payed).sum /
        ((stage_deltas hist_reentry Status.payed).length : ℚ)))) ∈
      get_average_time_by_stage hist_reentry) ∧
      ((hist_reentry.filter
          (fun e => decide (e.old_status = some Status.payed))).isEmpty =
          true →
        (Status.payed, (none : Option ℚ)) ∈
          get_average_time_by_stage hist_reentry) :=
  average_time_by_stage_amended hist_reentry Status.payed (by decide)

/-- The slice of the data store src/utils/scheduler.py
check_and_send_recalls reads and writes: the case table, the user table
and the notification table. -/
structure ScanDb where
  files : List File
  users : List User
  notifications : List Notification
  deriving DecidableEq, Repr

/-- The overdue filter of src/utils/scheduler.py lines 22-25: recall
date set and on/before today, status not Finalized (a null recall date
compares false in the store, so such cases are never selected). -/
def needs_recall (today : Int) (f : File) : Bool :=
  (match f.recall_date with
   | some d => decide (d ≤ today)
   | none => false) && decide (f.status ≠ Status.finalized)

/-- The same-day de-duplication check of src/utils/scheduler.py lines
44-51: some recall notification for the case was created on/after
today. -/
def has_recall_today (notifs : List Notification) (fid : Nat)
    (today : Int) : Bool :=
  notifs.any (fun n =>
    decide (n.file_id = some fid) && decide (n.notification_type = "recall") &&
      decide (today ≤ n.created_at))

/-- The file.owner relationship: the user row the case's user_id points
at, none for an unassigned case. -/
def find_user (users : List User) : Option Nat → Option User
  | none => none
  | some uid => users.find? (fun u => decide (u.id = uid))

/-- The notifications one processed case adds (src/utils/scheduler.py
lines 61-80): one for the owner, then one per admin (messages simplified
to the parts the claims read). -/
def recall_notifs_for (f : File) (owner : User) (admins : List User)
    (today : Int) : List Notification :=
  { message := "Rappel: Le dossier " ++ f.file_number,
    user_id := owner.id, file_id := some f.id,
    notification_type := "recall", read_status := false,
    created_at := today } ::
  admins.map (fun a =>
    { message := "Rappel pour " ++ owner.username ++ ": Dossier " ++
        f.file_number,
      user_id := a.id, file_id := some f.id, notification_type := "recall",
      read_status := false, created_at := today })

/-- The per-file body of the scan loop (src/utils/scheduler.py lines
38-89): skip the case when a recall notification for it already exists
today; otherwise build the recall email and the in-app notifications -
for an unowned case the email build raises on the missing owner and the
per-file exception handler rolls the case back, adding nothing. -/
def process_recall (users admins : List User) (today : Int)
    (notifs : List Notification) (f : File) : List Notification :=
  if has_recall_today notifs f.id today then notifs
  else
    match find_user users f.user_id with
    | none => notifs
    | some owner => notifs ++ recall_notifs_for f owner admins today

/-- src/utils/scheduler.py check_and_send_recalls (lines 10-91): select
the overdue non-Finalized cases and process each in turn against the
growing notification table. -/
def check_and_send_recalls (today : Int) (db : ScanDb) : ScanDb :=
  let admins := db.users.filter (fun u => decide (u.role = "admin"))
  let targets := db.files.filter (needs_recall today)
  { db with notifications :=
      targets.foldl (process_recall db.users admins today) db.notifications }

/-- Processing one case only appends notifications. -/
theorem process_recall_append (users admins : List User) (today : Int)
    (notifs : List Notification) (f : File) :
    ∃ t, process_recall users admins today notifs f = notifs ++ t := by
  unfold process_recall
  split
  · exact ⟨[], by simp⟩
  · split
    · exact ⟨[], by simp⟩
    · exact ⟨_, rfl⟩

/-- The whole scan loop only appends notifications. -/
theorem foldl_process_append (users admins : List User) (today : Int)
    (l : List File) (notifs : List Notification) :
    ∃ t, l.foldl (process_recall users admins today) notifs = notifs ++ t := by
  induction l generalizing notifs with
  | nil => exact ⟨[], by simp⟩
  | cons g l ih =>
    obtain ⟨t1, h1⟩ := process_recall_append users admins today notifs g
    obtain ⟨t2, h2⟩ := ih (notifs ++ t1)
    exact ⟨t1 ++ t2, by rw [List.foldl_cons, h1, h2, List.append_assoc]⟩

/-- The de-duplication check distributes over appended notifications. -/
theorem has_recall_today_append (a b : List Notification) (fid : Nat)
    (today : Int) :
    has_recall_today (a ++ b) fid today =
      (has_recall_today a fid today || has_recall_today b fid today) := by
  simp [has_recall_today, List.any_append]

/-- After its case is processed, an owned case has a same-day recall
notification. -/
theorem process_recall_establishes (users admins : List User) (today : Int)
    (notifs : List Notification) (f : File)
    (howner : find_user users f.user_id ≠ none) :
    has_recall_today (process_recall users admins today notifs f) f.id today
      = true := by
  unfold process_recall
  by_cases h : has_recall_today notifs f.id today
  · simp [h]
  · simp only [h, if_neg, Bool.false_eq_true, if_false]
    cases ho : find_user users f.user_id with
    | none => exact absurd ho howner
    | some owner =>
      rw [has_recall_today_append]
      have : has_recall_today (recall_notifs_for f owner admins today) f.id
          today = true := by
        simp [has_recall_today, recall_notifs_for]
      rw [this, Bool.or_true]

/-- A same-day recall notification survives the rest of the loop. -/
theorem foldl_preserves_has (users admins : List User) (today : Int)
    (l : List File) (notifs : List Notification) (fid : Nat)
    (h : has_recall_today notifs fid today = true) :
    has_recall_today (l.foldl (process_recall users admins today) notifs)
      fid today = true := by
  obtain ⟨t, ht⟩ := foldl_process_append users admins today l notifs
  rw [ht, has_recall_today_append, h, Bool.true_or]

/-- After the loop, every owned selected case has a same-day recall
notification. -/
theorem foldl_establishes (users admins : List User) (today : Int)
    (l : List File) (notifs : List Notification) (f : File) (hf : f ∈ l)
    (howner : find_user users f.user_id ≠ none) :
    has_recall_today (l.foldl (process_recall users admins today) notifs)
      f.id today = true := by
  induction l generalizing notifs with
  | nil => cases hf
  | cons g l ih =>
    rcases List.mem_cons.mp hf with rfl | hf
    · rw [List.foldl_cons]
      exact foldl_preserves_has users admins today l _ f.id
        (process_recall_establishes users admins today notifs f howner)
    · rw [List.foldl_cons]
      exact ih _ hf

/-- A loop pass over cases that are unowned or already have a same-day
recall notification changes nothing. -/
theorem foldl_noop (users admins : List User) (today : Int)
    (l : List File) (notifs : List Notification)
    (h : ∀ f ∈ l, find_user users f.user_id = none ∨
      has_recall_today notifs f.id today = true) :
    l.foldl (process_recall users admins today) notifs = notifs := by
  induction l with
  | nil => rfl
  | cons g l ih =>
    have hg := h g (List.mem_cons_self g l)
    have hgeq : process_recall users admins today notifs g = notifs := by
      unfold process_recall
      rcases hg with hg | hg
      · split
        · rfl
        · rw [hg]
      · rw [if_pos hg]
    rw [List.foldl_cons, hgeq,
      ih (fun f hf => h f (List.mem_cons_of_mem g hf))]

/-- The notifications added for one case never match the de-duplication
check of a different case. -/
theorem has_recall_for_other (g : File) (owner : User) (admins : List User)
    (today : Int) (fid : Nat) (hne : fid ≠ g.id) :
    has_recall_today (recall_notifs_for g owner admins today) fid today
      = false := by
  simp [has_recall_today, recall_notifs_for]
  exact ⟨fun h => hne h.symm, fun a _ h => hne h.symm⟩

/-- One processed case adds one owner notification plus one per admin. -/
theorem recall_notifs_for_length (g : File) (owner : User)
    (admins : List User) (today : Int) :
    (recall_notifs_for g owner admins today).length = 1 + admins.length := by
  simp [recall_notifs_for, Nat.add_comm]

/-- Over selected cases with pairwise-distinct ids, all owned and none
yet notified today, the loop adds exactly 1 + number-of-admins
notifications per case. -/
theorem foldl_count (users admins : List User) (today : Int)
    (l : List File) (notifs : List Notification)
    (hids : (l.map File.id).Nodup)
    (hown : ∀ f ∈ l, find_user users f.user_id ≠ none)
    (hfresh : ∀ f ∈ l, has_recall_today notifs f.id today = false) :
    (l.foldl (process_recall users admins today) notifs).length =
      notifs.length + l.length * (1 + admins.length) := by
  induction l generalizing notifs with
  | nil => simp
  | cons g l ih =>
    obtain ⟨owner, howner⟩ : ∃ o, find_user users g.user_id = some o := by
      cases ho : find_user users g.user_id with
      | none => exact absurd ho (hown g (List.mem_cons_self g l))
      | some o => exact ⟨o, rfl⟩
    have hgfresh := hfresh g (List.mem_cons_self g l)
    have hstep : process_recall users admins today notifs g =
        notifs ++ recall_notifs_for g owner admins today := by
      unfold process_recall
      rw [hgfresh]
      simp [howner]
    have hids' : (l.map File.id).Nodup := (List.nodup_cons.mp hids).2
    have hgnot : g.id ∉ l.map File.id := (List.nodup_cons.mp hids).1
    rw [List.foldl_cons, hstep, ih _ hids'
      (fun f hf => hown f (List.mem_cons_of_mem g hf))
      (fun f hf => by
        rw [has_recall_today_append,
          hfresh f (List.mem_cons_of_mem g hf),
          has_recall_for_other g owner admins today f.id
            (fun he => hgnot (he ▸ List.mem_map_of_mem File.id hf))]
        rfl)]
    rw [List.length_append, recall_notifs_for_length]
    simp [List.length_cons]
    ring

/-- C3: under the store invariants (selected cases have pairwise-distinct
ids, each has an owner, and no same-day recall notification exists yet),
one recall run adds exactly one owner notification plus one per admin
for every overdue non-Finalized case, and a second run on the same day
over the unchanged data adds nothing: it finds the same-day notification
of the first run and skips every case. -/
theorem check_and_send_recalls_spec (today : Int) (db : ScanDb)
    (hids : ((db.files.filter (needs_recall today)).map File.id).Nodup)
    (hown : ∀ f ∈ db.files.filter (needs_recall today),
      find_user db.users f.user_id ≠ none)
    (hfresh : ∀ f ∈ db.files.filter (needs_recall today),
      has_recall_today db.notifications f.id today = false) :
    check_and_send_recalls today (check_and_send_recalls today db) =
      check_and_send_recalls today db ∧
      (check_and_send_recalls today db).notifications.length =
        db.notifications.length +
          (db.files.filter (needs_recall today)).length *
            (1 + (db.users.filter
              (fun u => decide (u.role = "admin"))).length) := by
  have hnoop : (db.files.filter (needs_recall today)).foldl
      (process_recall db.users
        (db.users.filter (fun u => decide (u.role = "admin"))) today)
      ((db.files.filter (needs_recall today)).foldl
        (process_recall db.users
          (db.users.filter (fun u => decide (u.role = "admin"))) today)
        db.notifications) =
      (db.files.filter (needs_recall today)).foldl
        (process_recall db.users
          (db.users.filter (fun u => decide (u.role = "admin"))) today)
        db.notifications := by
    apply foldl_noop
    intro f hf
    right
    exact foldl_establishes db.users
      (db.users.filter (fun u => decide (u.role = "admin"))) today
      (db.files.filter (needs_recall today)) db.notifications f hf
      (hown f hf)
  constructor
  · simp only [check_and_send_recalls]
    rw [hnoop]
  · simp only [check_and_send_recalls]
    exact foldl_count db.users
      (db.users.filter (fun u => decide (u.role = "admin"))) today
      (db.files.filter (needs_recall today)) db.notifications
      hids hown hfresh

/-- An overdue, owned, non-Finalized case for the recall witness. -/
def overdueCase : File :=
  { id := 42, file_number := "VOC-2025-042", receipt_date := 0,
    importer := "Company B", exporter := "Exporter Y", country := "Spain",
    route := "A", sor_number := none, sol_number := none,
    status := Status.enCoursTraitement, montant_facture := none,
    evaluation_reason := none, recall_date := some 3, mar_number := none,
    proforma_number := none, payment_justification_path := none,
    invoiced_at := none, invoiced_by := none, created_at := 0,
    user_id := some 1 }

/-- A store with one overdue owned case, its owner, one admin and no
notifications. -/
def scanDb1 : ScanDb :=
  { files := [overdueCase],
    users := [{ id := 1, username := "bob", email := "bob@example.com",
                role := "user" },
              { id := 2, username := "root", email := "admin@example.com",
                role := "admin" }],
    notifications := [] }

/-- Witness for C3: the recall theorem applied to the concrete one-case
store on day 10. -/
theorem check_and_send_recalls_spec_witness :
    check_and_send_recalls 10 (check_and_send_recalls 10 scanDb1) =
      check_and_send_recalls 10 scanDb1 ∧
      (check_and_send_recalls 10 scanDb1).notifications.length =
        scanDb1.notifications.length +
          (scanDb1.files.filter (needs_recall 10)).length *
            (1 + (scanDb1.users.filter
              (fun u => decide (u.role = "admin"))).length) :=
  check_and_send_recalls_spec 10 scanDb1 (by decide) (by decide) (by decide)
